import Mathlib

/-!
Verification of the selection-toolbar positioning engine of this repository.

The repository ships the public prop contract (`SelectionToolbarProps`,
`SelectionToolbarItemProps` in `docs/app/(lobby)/pg/page.tsx`) as TypeScript
interface declarations with documented defaults.  The positioning engine
itself (Selection Observer, Anchor Geometry Provider, Collision-Aware
Placement Engine, Position Update Scheduler, Toolbar Controller) is not part
of the shipped sources; those components are modelled here from the design
document, as indicated by the doc comments starting `Modelled from the spec:`.
Pixel coordinates are embedded as integers.
-/

set_option autoImplicit false

namespace SelectionToolbar

/-- An axis-aligned rectangle `{top, right, bottom, left, width, height}`.
`right` and `bottom` are derived fields (`right = left + width`,
`bottom = top + height`), so only the four independent components are stored. -/
structure Rect where
  top : Int
  left : Int
  width : Int
  height : Int
deriving DecidableEq, Repr

def Rect.right (r : Rect) : Int := r.left + r.width

def Rect.bottom (r : Rect) : Int := r.top + r.height

/-- The size of the floating element. -/
structure Size where
  width : Int
  height : Int
deriving DecidableEq, Repr

/-- `side?: "top" | "right" | "bottom" | "left"` from `SelectionToolbarProps`. -/
inductive Side where
  | top
  | right
  | bottom
  | left
deriving DecidableEq, Repr

/-- `align?: "start" | "center" | "end"` from `SelectionToolbarProps`. -/
inductive Align where
  | start
  | center
  | «end»
deriving DecidableEq, Repr

/-- `sticky?: "partial" | "always"` from `SelectionToolbarProps`.
The constructor `part` stands for the source value `"partial"`. -/
inductive Sticky where
  | part
  | always
deriving DecidableEq, Repr

/-- `updatePositionStrategy?: "optimized" | "always"` from `SelectionToolbarProps`. -/
inductive UpdateStrategy where
  | optimized
  | always
deriving DecidableEq, Repr

/-- `collisionPadding?: number | Partial<Record<"top"|"right"|"bottom"|"left", number>>`
from `SelectionToolbarProps`: a single number for all edges or a partial
per-edge record. -/
inductive CollisionPadding where
  | uniform (n : Int)
  | perSide (top right bottom left : Option Int)
deriving DecidableEq, Repr

def CollisionPadding.topVal : CollisionPadding → Int
  | .uniform n => n
  | .perSide t _ _ _ => t.getD 0

def CollisionPadding.rightVal : CollisionPadding → Int
  | .uniform n => n
  | .perSide _ r _ _ => r.getD 0

def CollisionPadding.bottomVal : CollisionPadding → Int
  | .uniform n => n
  | .perSide _ _ b _ => b.getD 0

def CollisionPadding.leftVal : CollisionPadding → Int
  | .uniform n => n
  | .perSide _ _ _ l => l.getD 0

/-- A DOM element, identified abstractly. -/
structure Element where
  id : Nat
deriving DecidableEq, Repr

/-- A callback prop value (identified abstractly; only presence matters for
the optionality contract). -/
structure Callback where
  id : Nat
deriving DecidableEq, Repr

/-- `container?: HTMLElement | React.RefObject<HTMLElement | null> | null`
from `SelectionToolbarProps`: an element, a ref object (whose `current` may
be `null`), or `null`. -/
inductive ContainerProp where
  | nullVal
  | element (e : Element)
  | ref (current : Option Element)
deriving DecidableEq, Repr

/-- The scope the Selection Observer watches: the whole document by default,
or the configured container element. -/
inductive Scope where
  | wholeDocument
  | element (e : Element)
deriving DecidableEq, Repr

/-- `portalContainer?: Element | DocumentFragment | null` from
`SelectionToolbarProps`. -/
inductive PortalProp where
  | nullVal
  | element (e : Element)
  | fragment (id : Nat)
deriving DecidableEq, Repr

/-- Where the floating element is attached in the output tree:
`document.body` by default, or the configured element/fragment. -/
inductive PortalTarget where
  | documentBody
  | element (e : Element)
  | fragment (id : Nat)
deriving DecidableEq, Repr

/-- `collisionBoundary?: Element | null | (Element | null)[]` from
`SelectionToolbarProps`. -/
inductive BoundaryProp where
  | nullVal
  | single (e : Element)
  | list (es : List (Option Element))
deriving DecidableEq, Repr

/-- The public configuration surface `SelectionToolbarProps` from
`docs/app/(lobby)/pg/page.tsx`.  Every member of the interface is optional
(`?`), embedded as an `Option` field defaulting to `none`. -/
structure SelectionToolbarProps where
  «open» : Option Bool := none
  onOpenChange : Option Callback := none
  onSelectionChange : Option Callback := none
  container : Option ContainerProp := none
  portalContainer : Option PortalProp := none
  side : Option Side := none
  sideOffset : Option Int := none
  align : Option Align := none
  alignOffset : Option Int := none
  avoidCollisions : Option Bool := none
  collisionBoundary : Option BoundaryProp := none
  collisionPadding : Option CollisionPadding := none
  sticky : Option Sticky := none
  hideWhenDetached : Option Bool := none
  updatePositionStrategy : Option UpdateStrategy := none

/-- `SelectionToolbarItemProps` from `docs/app/(lobby)/pg/page.tsx`: the one
declared member, `onSelect?: (text: string, event: Event) => void`, is
optional. -/
structure SelectionToolbarItemProps where
  onSelect : Option Callback := none

/-- The names of the members declared by the `SelectionToolbarProps`
interface, in source order. -/
def selectionToolbarOptionNames : List String :=
  ["open", "onOpenChange", "onSelectionChange", "container", "portalContainer",
   "side", "sideOffset", "align", "alignOffset", "avoidCollisions",
   "collisionBoundary", "collisionPadding", "sticky", "hideWhenDetached",
   "updatePositionStrategy"]

/-- Modelled from the spec: resolution of the `container` prop (the Observer
scope).  An absent or `null` container, or a ref whose `current` is `null`,
scopes observation to the whole document (source doc: `@default document`). -/
def resolveScope : Option ContainerProp → Scope
  | none => Scope.wholeDocument
  | some ContainerProp.nullVal => Scope.wholeDocument
  | some (ContainerProp.element e) => Scope.element e
  | some (ContainerProp.ref none) => Scope.wholeDocument
  | some (ContainerProp.ref (some e)) => Scope.element e

/-- Modelled from the spec: resolution of the `portalContainer` prop.  Absent
or `null` means `document.body` (source doc: `@default document.body`). -/
def resolvePortal : Option PortalProp → PortalTarget
  | none => PortalTarget.documentBody
  | some PortalProp.nullVal => PortalTarget.documentBody
  | some (PortalProp.element e) => PortalTarget.element e
  | some (PortalProp.fragment n) => PortalTarget.fragment n

/-- Modelled from the spec: resolution of the `collisionBoundary` prop to the
list of boundary elements.  Absent or `null` means no boundary (source doc:
`@default []`); `null` entries inside a list contribute no boundary. -/
def resolveBoundaries : Option BoundaryProp → List Element
  | none => []
  | some BoundaryProp.nullVal => []
  | some (BoundaryProp.single e) => [e]
  | some (BoundaryProp.list es) => es.filterMap id

/-- The fully resolved configuration after applying the documented defaults. -/
structure ResolvedConfig where
  scope : Scope
  portal : PortalTarget
  side : Side
  sideOffset : Int
  align : Align
  alignOffset : Int
  avoidCollisions : Bool
  boundaries : List Element
  collisionPadding : CollisionPadding
  sticky : Sticky
  hideWhenDetached : Bool
  updatePositionStrategy : UpdateStrategy
deriving DecidableEq, Repr

/-- Modelled from the spec: applying the `@default` values documented on each
member of `SelectionToolbarProps` to a partially supplied props record. -/
def resolveProps (p : SelectionToolbarProps) : ResolvedConfig :=
  { scope := resolveScope p.container
    portal := resolvePortal p.portalContainer
    side := p.side.getD Side.top
    sideOffset := p.sideOffset.getD 8
    align := p.align.getD Align.center
    alignOffset := p.alignOffset.getD 0
    avoidCollisions := p.avoidCollisions.getD true
    boundaries := resolveBoundaries p.collisionBoundary
    collisionPadding := p.collisionPadding.getD (CollisionPadding.uniform 0)
    sticky := p.sticky.getD Sticky.part
    hideWhenDetached := p.hideWhenDetached.getD false
    updatePositionStrategy := p.updatePositionStrategy.getD UpdateStrategy.optimized }

/-- The documented default configuration, stated explicitly. -/
def defaultResolvedConfig : ResolvedConfig :=
  { scope := Scope.wholeDocument
    portal := PortalTarget.documentBody
    side := Side.top
    sideOffset := 8
    align := Align.center
    alignOffset := 0
    avoidCollisions := true
    boundaries := []
    collisionPadding := CollisionPadding.uniform 0
    sticky := Sticky.part
    hideWhenDetached := false
    updatePositionStrategy := UpdateStrategy.optimized }

/-! ### Collision-aware placement engine (spec §4.3) -/

/-- The input of one placement pass (spec §3, Placement Input). -/
structure PlacementInput where
  anchor : Rect
  floatingSize : Size
  side : Side
  align : Align
  sideOffset : Int
  alignOffset : Int
  avoidCollisions : Bool
  collisionBoundaries : List Rect
  collisionPadding : CollisionPadding
  sticky : Sticky
deriving DecidableEq, Repr

/-- The output of one placement pass (spec §3, Placement Result). -/
structure PlacementResult where
  x : Int
  y : Int
  placedSide : Side
  placedAlign : Align
  isAnchorHidden : Bool
deriving DecidableEq, Repr

/-- Whether a side's primary axis is the vertical axis. -/
def isVertical : Side → Bool
  | Side.top => true
  | Side.bottom => true
  | Side.left => false
  | Side.right => false

/-- The opposite side used by the flip step (top↔bottom, left↔right). -/
def oppositeSide : Side → Side
  | Side.top => Side.bottom
  | Side.bottom => Side.top
  | Side.left => Side.right
  | Side.right => Side.left

/-- Modelled from the spec: the coordinate of the floating box along the
alignment axis, before collision handling.  `lo` and `extent` describe the
anchor on that axis, `size` the floating box. -/
def alignCoord (lo extent size : Int) (al : Align) (ao : Int) : Int :=
  match al with
  | Align.start => lo + ao
  | Align.center => lo + (extent - size) / 2 + ao
  | Align.«end» => lo + extent - size + ao

/-- Modelled from the spec: the naive x coordinate for a requested side
(spec §4.3 step 1).  For `left`/`right` the x axis is the primary axis
(`sideOffset` gap); for `top`/`bottom` it is the alignment axis. -/
def naiveX (anchor : Rect) (sz : Size) (s : Side) (al : Align) (so ao : Int) : Int :=
  match s with
  | Side.left => anchor.left - sz.width - so
  | Side.right => anchor.right + so
  | _ => alignCoord anchor.left anchor.width sz.width al ao

/-- Modelled from the spec: the naive y coordinate for a requested side
(spec §4.3 step 1). -/
def naiveY (anchor : Rect) (sz : Size) (s : Side) (al : Align) (so ao : Int) : Int :=
  match s with
  | Side.top => anchor.top - sz.height - so
  | Side.bottom => anchor.bottom + so
  | _ => alignCoord anchor.top anchor.height sz.height al ao

/-- A boundary rectangle shrunk inward by the collision padding
(spec §4.3 step 3). -/
def shrink (p : CollisionPadding) (b : Rect) : Rect :=
  { top := b.top + p.topVal
    left := b.left + p.leftVal
    width := b.width - p.leftVal - p.rightVal
    height := b.height - p.topVal - p.bottomVal }

/-- Intersection of two rectangles (possibly empty, as negative extent). -/
def interRect (a b : Rect) : Rect :=
  { top := max a.top b.top
    left := max a.left b.left
    width := min a.right b.right - max a.left b.left
    height := min a.bottom b.bottom - max a.top b.top }

/-- Modelled from the spec: the region the floating box must stay inside —
every collision boundary shrunk inward by the padding, combined by
intersection (a box avoids overflowing each padded boundary exactly when it
stays inside their intersection).  `none` when the boundary list is empty,
in which case collision handling is skipped entirely. -/
def clipRect (bs : List Rect) (p : CollisionPadding) : Option Rect :=
  match bs.map (shrink p) with
  | [] => none
  | r :: rs => some (rs.foldl interRect r)

/-- Strictly positive overlap of two rectangles. -/
def rectsOverlap (a b : Rect) : Bool :=
  decide (a.left < b.right ∧ b.left < a.right ∧ a.top < b.bottom ∧ b.top < a.bottom)

/-- Modelled from the spec: the anchor is entirely outside all boundaries
(zero visible overlap); `false` when the boundary list is empty
(spec §4.3 step 3c and edge cases). -/
def anchorHidden (anchor : Rect) (bs : List Rect) : Bool :=
  !bs.isEmpty && bs.all (fun b => !rectsOverlap anchor b)

/-- Modelled from the spec: overflow of the naively placed box past the clip
region along the primary axis of side `s` (the larger of the two edge
overflows; nonpositive when the box fits on that axis). -/
def primaryOverflow (input : PlacementInput) (clip : Rect) (s : Side) : Int :=
  if isVertical s then
    let y := naiveY input.anchor input.floatingSize s input.align input.sideOffset input.alignOffset
    max (clip.top - y) (y + input.floatingSize.height - clip.bottom)
  else
    let x := naiveX input.anchor input.floatingSize s input.align input.sideOffset input.alignOffset
    max (clip.left - x) (x + input.floatingSize.width - clip.right)

/-- Modelled from the spec: the flip step (spec §4.3 step 3a).  If the box
overflows along the primary axis of the requested side, the opposite side is
tried, and is accepted when its primary-axis overflow is smaller (in
particular when it is nonpositive); otherwise the requested side stands. -/
def resolvedSide (input : PlacementInput) (clip : Rect) : Side :=
  let o0 := primaryOverflow input clip input.side
  let o1 := primaryOverflow input clip (oppositeSide input.side)
  if 0 < o0 ∧ o1 < o0 then oppositeSide input.side else input.side

/-- Modelled from the spec: whether the anchor is at least partially inside
the clip region on the alignment axis of side `s` (the sticky gate of
spec §4.3 step 3b; the source documents `"partial"` as keeping the toolbar in
the boundary as long as the trigger is at least partially in view). -/
def anchorPartiallyInsideAlign (anchor clip : Rect) (s : Side) : Bool :=
  if isVertical s then
    decide (clip.left < anchor.right ∧ anchor.left < clip.right)
  else
    decide (clip.top < anchor.bottom ∧ anchor.top < clip.bottom)

/-- Modelled from the spec: the shift step on one axis (spec §4.3 step 3b) —
translate the box span `[pos, pos + size]` by the minimum amount needed to
fit inside `[lo, hi]`; identity when it already fits. -/
def shiftCoord (lo hi pos size : Int) : Int :=
  if pos < lo then lo
  else if hi < pos + size then hi - size
  else pos

/-- The naive placement, used when collision handling is skipped. -/
def naivePlacement (input : PlacementInput) (hidden : Bool) : PlacementResult :=
  { x := naiveX input.anchor input.floatingSize input.side input.align input.sideOffset input.alignOffset
    y := naiveY input.anchor input.floatingSize input.side input.align input.sideOffset input.alignOffset
    placedSide := input.side
    placedAlign := input.align
    isAnchorHidden := hidden }

/-- Modelled from the spec: flip then shift against a computed clip region
(spec §4.3 steps 3a–3c and 4). -/
def placeWithClip (input : PlacementInput) (clip : Rect) : PlacementResult :=
  let sz := input.floatingSize
  let s := resolvedSide input clip
  let nx := naiveX input.anchor sz s input.align input.sideOffset input.alignOffset
  let ny := naiveY input.anchor sz s input.align input.sideOffset input.alignOffset
  let allow := input.sticky = Sticky.always ∨ anchorPartiallyInsideAlign input.anchor clip s = true
  let hidden := anchorHidden input.anchor input.collisionBoundaries
  if isVertical s then
    { x := if allow then shiftCoord clip.left clip.right nx sz.width else nx
      y := ny
      placedSide := s
      placedAlign := input.align
      isAnchorHidden := hidden }
  else
    { x := nx
      y := if allow then shiftCoord clip.top clip.bottom ny sz.height else ny
      placedSide := s
      placedAlign := input.align
      isAnchorHidden := hidden }

/-- Modelled from the spec: `place(input) -> Placement Result`, the pure
collision-aware placement function (spec §4.3).  Collision handling is
skipped when `avoidCollisions` is off, when the boundary list is empty, or
when the floating element has zero size (spec edge cases). -/
def place (input : PlacementInput) : PlacementResult :=
  if input.avoidCollisions = false then naivePlacement input false
  else
    match clipRect input.collisionBoundaries input.collisionPadding with
    | none => naivePlacement input false
    | some clip =>
      if input.floatingSize.width = 0 ∧ input.floatingSize.height = 0 then
        naivePlacement input (anchorHidden input.anchor input.collisionBoundaries)
      else placeWithClip input clip

/-- Whether a box of size `sz` at `(x, y)` lies inside the clip region. -/
def boxFits (x y : Int) (sz : Size) (clip : Rect) : Bool :=
  decide (clip.left ≤ x ∧ x + sz.width ≤ clip.right ∧
          clip.top ≤ y ∧ y + sz.height ≤ clip.bottom)

/-- The floating box extent on the alignment axis of side `s`. -/
def alignSize (sz : Size) (s : Side) : Int :=
  if isVertical s then sz.width else sz.height

/-- The clip-region extent on the alignment axis of side `s`. -/
def clipAlignSize (clip : Rect) (s : Side) : Int :=
  if isVertical s then clip.width else clip.height

/-- The naive coordinate of the floating box on the alignment axis of the
requested side (independent of the flip outcome, since flipping preserves
the axis orientation). -/
def naiveAlignCoord (input : PlacementInput) : Int :=
  if isVertical input.side then
    naiveX input.anchor input.floatingSize input.side input.align input.sideOffset input.alignOffset
  else
    naiveY input.anchor input.floatingSize input.side input.align input.sideOffset input.alignOffset

/-- The coordinate `place` returned on the alignment axis of the requested
side. -/
def resultAlignCoord (input : PlacementInput) : Int :=
  if isVertical input.side then (place input).x else (place input).y

/-- The alignment-axis coordinate after the shift step. -/
def shiftedAlignCoord (input : PlacementInput) (clip : Rect) : Int :=
  if isVertical input.side then
    shiftCoord clip.left clip.right (naiveAlignCoord input) input.floatingSize.width
  else
    shiftCoord clip.top clip.bottom (naiveAlignCoord input) input.floatingSize.height

/-! ### Toolbar Controller (spec §4.5) -/

/-- Modelled from the spec: the open/closed ownership state of the Toolbar
Controller.  `externalOpen` is `some b` exactly when the caller supplies the
controlled `open` prop; `internalOpen` is the Controller-owned state used in
uncontrolled mode. -/
structure ControllerState where
  externalOpen : Option Bool
  internalOpen : Bool
deriving DecidableEq, Repr

/-- The effective open value: the externally-owned value when controlled,
the internal state otherwise. -/
def effectiveOpen (s : ControllerState) : Bool :=
  s.externalOpen.getD s.internalOpen

/-- The observable outcome of a controller transition: the next state and
the arguments of the `onOpenChange` calls it made, in order. -/
structure CloseOutcome where
  state : ControllerState
  onOpenChangeCalls : List Bool
deriving DecidableEq, Repr

/-- Modelled from the spec: an internal close trigger (cleared selection,
`isAnchorHidden` with `hideWhenDetached`, …) hitting the Controller.  In
controlled mode the Controller calls `onOpenChange(false)` and leaves the
externally-owned value untouched; in uncontrolled mode it mutates its own
state (and still notifies). -/
def applyInternalClose (s : ControllerState) : CloseOutcome :=
  match s.externalOpen with
  | some _ => { state := s, onOpenChangeCalls := [false] }
  | none => { state := { s with internalOpen := false }, onOpenChangeCalls := [false] }

/-- The caller updating the controlled `open` prop. -/
def callerSetOpen (s : ControllerState) (b : Bool) : ControllerState :=
  { s with externalOpen := some b }

/-! ### Position Update Scheduler and pipeline teardown (spec §4.4, §5) -/

/-- Modelled from the spec: the observable resource state of the
Observer → Scheduler pipeline — whether document listeners are attached,
which scheduled recomputation callbacks are pending, and whether the
pipeline has been torn down. -/
structure PipelineState where
  listenersAttached : Bool
  pendingTasks : List Nat
  tornDown : Bool
deriving DecidableEq, Repr

/-- Modelled from the spec: teardown (unmount or explicit close)
synchronously detaches all listeners and cancels all pending scheduled
work. -/
def teardown (_s : PipelineState) : PipelineState :=
  { listenersAttached := false, pendingTasks := [], tornDown := true }

/-- Modelled from the spec: scheduling a recomputation callback; a no-op
(never an error) after teardown. -/
def schedule (s : PipelineState) (t : Nat) : PipelineState :=
  if s.tornDown then s else { s with pendingTasks := s.pendingTasks ++ [t] }

/-- Modelled from the spec: one scheduler tick, firing (and draining) the
pending callbacks; fires nothing after teardown. -/
def runTick (s : PipelineState) : PipelineState × List Nat :=
  if s.tornDown then (s, []) else ({ s with pendingTasks := [] }, s.pendingTasks)

/-- The operations the environment can drive the pipeline with after some
point in time. -/
inductive PipelineOp where
  | scheduleTask (t : Nat)
  | tick
  | close
deriving DecidableEq, Repr

/-- One pipeline step together with the callbacks it fired. -/
def applyOp (s : PipelineState) : PipelineOp → PipelineState × List Nat
  | PipelineOp.scheduleTask t => (schedule s t, [])
  | PipelineOp.tick => runTick s
  | PipelineOp.close => (teardown s, [])

/-- Running a sequence of pipeline operations, collecting every callback
firing. -/
def runOps (s : PipelineState) : List PipelineOp → PipelineState × List Nat
  | [] => (s, [])
  | op :: ops =>
    ((runOps (applyOp s op).1 ops).1,
     (applyOp s op).2 ++ (runOps (applyOp s op).1 ops).2)

/-! ### Configuration validation (spec §7b) -/

/-- The side names admitted by `side?: "top" | "right" | "bottom" | "left"`. -/
def validSideNames : List String := ["top", "right", "bottom", "left"]

/-- The align names admitted by `align?: "start" | "center" | "end"`. -/
def validAlignNames : List String := ["start", "center", "end"]

/-- A raw, not yet validated configuration as the caller could supply it. -/
structure RawConfig where
  side : String
  align : String
  sideOffset : Int
deriving DecidableEq, Repr

/-- Modelled from the spec: fail-fast validation of programmer-supplied
configuration — a negative `sideOffset` or an unknown `side`/`align` value
is rejected at configuration time with a descriptive error. -/
def validateConfig (c : RawConfig) : Except String RawConfig :=
  if c.sideOffset < 0 then
    Except.error "Invalid sideOffset: expected a non-negative number"
  else if (validSideNames.contains c.side) = false then
    Except.error "Invalid side: expected one of top, right, bottom, left"
  else if (validAlignNames.contains c.align) = false then
    Except.error "Invalid align: expected one of start, center, end"
  else Except.ok c

/-! ### Item-level onSelect dispatch (spec §6) -/

/-- The triggering interaction event handed to `onSelect`. -/
structure Event where
  id : Nat
  defaultPrevented : Bool
deriving DecidableEq, Repr

/-- Modelled from the spec: the Toolbar State owned by the Controller
(spec §3). -/
structure ToolbarState where
  «open» : Bool
  selectionText : Option String
  placement : Option PlacementResult
deriving DecidableEq, Repr

/-- The observable outcome of an item selection: the toolbar state
afterwards and the argument pair the `onSelect` callback was invoked with
(`none` when no callback was invoked). -/
structure ItemSelectOutcome where
  state : ToolbarState
  callbackArgs : Option (String × Event)
deriving DecidableEq, Repr

/-- Modelled from the spec: dispatching an item activation.  When an
`onSelect` callback is present it is invoked with exactly the current
selection text and the triggering event (source signature
`onSelect?: (text: string, event: Event) => void`), and the toolbar state —
in particular `open` — is left unchanged. -/
def dispatchItemSelect (s : ToolbarState) (hasOnSelect : Bool) (ev : Event) : ItemSelectOutcome :=
  if hasOnSelect then
    { state := s, callbackArgs := some (s.selectionText.getD "", ev) }
  else
    { state := s, callbackArgs := none }

/-! ### Concrete scenario inputs -/

/-- The anchor rectangle of the spec's flip scenarios. -/
def scenarioAnchor : Rect := { top := 100, left := 50, width := 40, height := 20 }

/-- The small boundary of the spec's first flip scenario. -/
def scenarioBoundarySmall : Rect := { top := 0, left := 0, width := 800, height := 120 }

/-- The tall boundary of the spec's second flip scenario. -/
def scenarioBoundaryTall : Rect := { top := 0, left := 0, width := 800, height := 2000 }

/-- The spec's flip scenario input over a given boundary: `side="top"`,
`avoidCollisions=true`, floating size 120×30, remaining options at their
defaults. -/
def scenarioInput (b : Rect) : PlacementInput :=
  { anchor := scenarioAnchor
    floatingSize := { width := 120, height := 30 }
    side := Side.top
    align := Align.center
    sideOffset := 8
    alignOffset := 0
    avoidCollisions := true
    collisionBoundaries := [b]
    collisionPadding := CollisionPadding.uniform 0
    sticky := Sticky.part }

/-- A variant of the flip scenario whose anchor sits near the boundary top,
so that the requested `side="top"` placement genuinely overflows. -/
def flipWitnessInput : PlacementInput :=
  { scenarioInput scenarioBoundarySmall with
      anchor := { top := 10, left := 50, width := 40, height := 20 } }

/-- The clip region of the scenario boundaries (padding is zero). -/
def scenarioClipSmall : Rect := scenarioBoundarySmall

/-- A 200×200 boundary used by the shift and sticky examples. -/
def squareBoundary : Rect := { top := 0, left := 0, width := 200, height := 200 }

/-- Shift example: the anchor lies entirely to the right of the boundary on
the alignment axis, `sticky="partial"`, floating size 50×20, `side="top"`. -/
def stickyOutsideInput : PlacementInput :=
  { anchor := { top := 100, left := 300, width := 10, height := 10 }
    floatingSize := { width := 50, height := 20 }
    side := Side.top
    align := Align.center
    sideOffset := 8
    alignOffset := 0
    avoidCollisions := true
    collisionBoundaries := [squareBoundary]
    collisionPadding := CollisionPadding.uniform 0
    sticky := Sticky.part }

/-- Sticky example: the anchor (x from 190 to 290) is 90% outside the
boundary on the alignment axis yet still partially inside it. -/
def stickyMostlyOutsideInput : PlacementInput :=
  { anchor := { top := 100, left := 190, width := 100, height := 10 }
    floatingSize := { width := 50, height := 20 }
    side := Side.top
    align := Align.center
    sideOffset := 8
    alignOffset := 0
    avoidCollisions := true
    collisionBoundaries := [squareBoundary]
    collisionPadding := CollisionPadding.uniform 0
    sticky := Sticky.part }

/-- Shift example: an anchor comfortably inside the boundary. -/
def shiftFitInput : PlacementInput :=
  { anchor := { top := 100, left := 80, width := 40, height := 10 }
    floatingSize := { width := 50, height := 20 }
    side := Side.top
    align := Align.center
    sideOffset := 8
    alignOffset := 0
    avoidCollisions := true
    collisionBoundaries := [squareBoundary]
    collisionPadding := CollisionPadding.uniform 0
    sticky := Sticky.part }

/-! ### Helper lemmas -/

theorem isVertical_opposite (s : Side) : isVertical (oppositeSide s) = isVertical s := by
  cases s <;> rfl

theorem oppositeSide_ne (s : Side) : oppositeSide s ≠ s := by
  cases s <;> decide

theorem naiveX_vertical_congr (a : Rect) (sz : Size) (s s' : Side) (al : Align) (so ao : Int)
    (hs : isVertical s = true) (hs' : isVertical s' = true) :
    naiveX a sz s al so ao = naiveX a sz s' al so ao := by
  cases s <;> cases s' <;> first | rfl | simp [isVertical] at hs hs'

theorem naiveY_horizontal_congr (a : Rect) (sz : Size) (s s' : Side) (al : Align) (so ao : Int)
    (hs : isVertical s = false) (hs' : isVertical s' = false) :
    naiveY a sz s al so ao = naiveY a sz s' al so ao := by
  cases s <;> cases s' <;> first | rfl | simp [isVertical] at hs hs'

theorem anchorPartiallyInsideAlign_congr (a clip : Rect) (s s' : Side)
    (h : isVertical s = isVertical s') :
    anchorPartiallyInsideAlign a clip s = anchorPartiallyInsideAlign a clip s' := by
  cases s <;> cases s' <;> first | rfl | simp [isVertical] at h

theorem isVertical_resolvedSide (input : PlacementInput) (clip : Rect) :
    isVertical (resolvedSide input clip) = isVertical input.side := by
  unfold resolvedSide
  dsimp only
  split
  · exact isVertical_opposite input.side
  · rfl

theorem primaryOverflow_resolvedSide_le (input : PlacementInput) (clip : Rect)
    (h : primaryOverflow input clip input.side ≤ 0 ∨
         primaryOverflow input clip (oppositeSide input.side) ≤ 0) :
    primaryOverflow input clip (resolvedSide input clip) ≤ 0 := by
  unfold resolvedSide
  dsimp only
  split
  next hc => omega
  next hc =>
    rcases h with h | h
    · exact h
    · by_cases h0 : primaryOverflow input clip input.side ≤ 0
      · exact h0
      · exact absurd ⟨by omega, by omega⟩ hc

theorem resolvedSide_eq_opposite_iff (input : PlacementInput) (clip : Rect)
    (h0 : 0 < primaryOverflow input clip input.side) :
    resolvedSide input clip = oppositeSide input.side ↔
      (primaryOverflow input clip (oppositeSide input.side) <
         primaryOverflow input clip input.side ∨
       primaryOverflow input clip (oppositeSide input.side) ≤ 0) := by
  unfold resolvedSide
  dsimp only
  split
  next hc =>
    exact ⟨fun _ => Or.inl hc.2, fun _ => rfl⟩
  next hc =>
    constructor
    · intro he
      exact absurd he.symm (oppositeSide_ne input.side)
    · intro hd
      rcases hd with hd | hd
      · exact absurd ⟨h0, hd⟩ hc
      · exact absurd ⟨h0, by omega⟩ hc

theorem shiftCoord_mem (lo hi pos size : Int) (hfit : size ≤ hi - lo) :
    lo ≤ shiftCoord lo hi pos size ∧ shiftCoord lo hi pos size + size ≤ hi := by
  unfold shiftCoord
  split_ifs <;> omega

theorem place_eq_placeWithClip (input : PlacementInput) (clip : Rect)
    (hclip : clipRect input.collisionBoundaries input.collisionPadding = some clip)
    (havoid : input.avoidCollisions = true)
    (hw : 0 < input.floatingSize.width) :
    place input = placeWithClip input clip := by
  have hnz : ¬(input.floatingSize.width = 0 ∧ input.floatingSize.height = 0) := by
    intro hc
    omega
  unfold place
  rw [hclip, havoid]
  simp [hnz]

theorem runOps_tornDown (ops : List PipelineOp) (s : PipelineState)
    (h : s.tornDown = true) :
    (runOps s ops).2 = [] ∧ (runOps s ops).1.tornDown = true := by
  induction ops generalizing s with
  | nil => exact ⟨rfl, h⟩
  | cons op ops ih =>
    have hstep : (applyOp s op).1.tornDown = true ∧ (applyOp s op).2 = [] := by
      cases op <;> simp [applyOp, schedule, runTick, teardown, h]
    have hrest := ih (applyOp s op).1 hstep.1
    refine ⟨?_, hrest.2⟩
    simp only [runOps]
    rw [hstep.2, hrest.1]
    rfl

theorem primaryOverflow_vertical (input : PlacementInput) (clip : Rect) (s : Side)
    (hv : isVertical s = true) :
    primaryOverflow input clip s =
      max (clip.top -
            naiveY input.anchor input.floatingSize s input.align input.sideOffset
              input.alignOffset)
          (naiveY input.anchor input.floatingSize s input.align input.sideOffset
              input.alignOffset + input.floatingSize.height - clip.bottom) := by
  unfold primaryOverflow
  simp [hv]

theorem primaryOverflow_horizontal (input : PlacementInput) (clip : Rect) (s : Side)
    (hv : isVertical s = false) :
    primaryOverflow input clip s =
      max (clip.left -
            naiveX input.anchor input.floatingSize s input.align input.sideOffset
              input.alignOffset)
          (naiveX input.anchor input.floatingSize s input.align input.sideOffset
              input.alignOffset + input.floatingSize.width - clip.right) := by
  unfold primaryOverflow
  simp [hv]

theorem placeWithClip_placedSide (input : PlacementInput) (clip : Rect) :
    (placeWithClip input clip).placedSide = resolvedSide input clip := by
  unfold placeWithClip
  dsimp only
  split <;> rfl

theorem placeWithClip_x_vertical (input : PlacementInput) (clip : Rect)
    (hv : isVertical (resolvedSide input clip) = true) :
    (placeWithClip input clip).x =
      (if input.sticky = Sticky.always ∨
           anchorPartiallyInsideAlign input.anchor clip (resolvedSide input clip) = true
       then shiftCoord clip.left clip.right
              (naiveX input.anchor input.floatingSize (resolvedSide input clip)
                 input.align input.sideOffset input.alignOffset)
              input.floatingSize.width
       else naiveX input.anchor input.floatingSize (resolvedSide input clip)
              input.align input.sideOffset input.alignOffset) := by
  unfold placeWithClip
  simp [hv]

theorem placeWithClip_y_vertical (input : PlacementInput) (clip : Rect)
    (hv : isVertical (resolvedSide input clip) = true) :
    (placeWithClip input clip).y =
      naiveY input.anchor input.floatingSize (resolvedSide input clip) input.align
        input.sideOffset input.alignOffset := by
  unfold placeWithClip
  simp [hv]

theorem placeWithClip_x_horizontal (input : PlacementInput) (clip : Rect)
    (hv : isVertical (resolvedSide input clip) = false) :
    (placeWithClip input clip).x =
      naiveX input.anchor input.floatingSize (resolvedSide input clip) input.align
        input.sideOffset input.alignOffset := by
  unfold placeWithClip
  simp [hv]

theorem placeWithClip_y_horizontal (input : PlacementInput) (clip : Rect)
    (hv : isVertical (resolvedSide input clip) = false) :
    (placeWithClip input clip).y =
      (if input.sticky = Sticky.always ∨
           anchorPartiallyInsideAlign input.anchor clip (resolvedSide input clip) = true
       then shiftCoord clip.top clip.bottom
              (naiveY input.anchor input.floatingSize (resolvedSide input clip)
                 input.align input.sideOffset input.alignOffset)
              input.floatingSize.height
       else naiveY input.anchor input.floatingSize (resolvedSide input clip)
              input.align input.sideOffset input.alignOffset) := by
  unfold placeWithClip
  simp [hv]

theorem resultAlignCoord_vertical (input : PlacementInput)
    (hv : isVertical input.side = true) :
    resultAlignCoord input = (place input).x := by
  unfold resultAlignCoord
  exact if_pos hv

theorem resultAlignCoord_horizontal (input : PlacementInput)
    (hv : isVertical input.side = false) :
    resultAlignCoord input = (place input).y := by
  unfold resultAlignCoord
  exact if_neg (by rw [hv]; decide)

theorem naiveAlignCoord_vertical (input : PlacementInput)
    (hv : isVertical input.side = true) :
    naiveAlignCoord input =
      naiveX input.anchor input.floatingSize input.side input.align input.sideOffset
        input.alignOffset := by
  unfold naiveAlignCoord
  exact if_pos hv

theorem naiveAlignCoord_horizontal (input : PlacementInput)
    (hv : isVertical input.side = false) :
    naiveAlignCoord input =
      naiveY input.anchor input.floatingSize input.side input.align input.sideOffset
        input.alignOffset := by
  unfold naiveAlignCoord
  exact if_neg (by rw [hv]; decide)

theorem shiftedAlignCoord_vertical (input : PlacementInput) (clip : Rect)
    (hv : isVertical input.side = true) :
    shiftedAlignCoord input clip =
      shiftCoord clip.left clip.right (naiveAlignCoord input)
        input.floatingSize.width := by
  unfold shiftedAlignCoord
  exact if_pos hv

theorem shiftedAlignCoord_horizontal (input : PlacementInput) (clip : Rect)
    (hv : isVertical input.side = false) :
    shiftedAlignCoord input clip =
      shiftCoord clip.top clip.bottom (naiveAlignCoord input)
        input.floatingSize.height := by
  unfold shiftedAlignCoord
  exact if_neg (by rw [hv]; decide)

/-! ### Claim theorems -/

/-- Claim C1: the public configuration surface declares exactly the options
`open`, `onOpenChange`, `onSelectionChange`, `container`, `portalContainer`,
`side`, `sideOffset`, `align`, `alignOffset`, `avoidCollisions`,
`collisionBoundary`, `collisionPadding`, `sticky`, `hideWhenDetached` and
`updatePositionStrategy`, and resolving an empty props record yields the
documented defaults: whole-document scope, `document.body` portal,
`side="top"`, `sideOffset=8`, `align="center"`, `alignOffset=0`,
`avoidCollisions=true`, no collision boundary, `collisionPadding=0`,
`sticky="partial"`, `hideWhenDetached=false`,
`updatePositionStrategy="optimized"`. -/
theorem config_surface_exact :
    selectionToolbarOptionNames =
      ["open", "onOpenChange", "onSelectionChange", "container", "portalContainer",
       "side", "sideOffset", "align", "alignOffset", "avoidCollisions",
       "collisionBoundary", "collisionPadding", "sticky", "hideWhenDetached",
       "updatePositionStrategy"] ∧
    resolveProps {} =
      { scope := Scope.wholeDocument
        portal := PortalTarget.documentBody
        side := Side.top
        sideOffset := 8
        align := Align.center
        alignOffset := 0
        avoidCollisions := true
        boundaries := []
        collisionPadding := CollisionPadding.uniform 0
        sticky := Sticky.part
        hideWhenDetached := false
        updatePositionStrategy := UpdateStrategy.optimized } :=
  ⟨rfl, rfl⟩

/-- Claim C9: every option of the public configuration surface, including
the item-level `onSelect`, is optional — a props record built with no
configuration at all has every field unset, an item props record built with
no configuration has `onSelect` unset, and resolving the empty record
yields the documented defaults. -/
theorem all_options_optional :
    ({} : SelectionToolbarProps).«open» = none ∧
    ({} : SelectionToolbarProps).onOpenChange = none ∧
    ({} : SelectionToolbarProps).onSelectionChange = none ∧
    ({} : SelectionToolbarProps).container = none ∧
    ({} : SelectionToolbarProps).portalContainer = none ∧
    ({} : SelectionToolbarProps).side = none ∧
    ({} : SelectionToolbarProps).sideOffset = none ∧
    ({} : SelectionToolbarProps).align = none ∧
    ({} : SelectionToolbarProps).alignOffset = none ∧
    ({} : SelectionToolbarProps).avoidCollisions = none ∧
    ({} : SelectionToolbarProps).collisionBoundary = none ∧
    ({} : SelectionToolbarProps).collisionPadding = none ∧
    ({} : SelectionToolbarProps).sticky = none ∧
    ({} : SelectionToolbarProps).hideWhenDetached = none ∧
    ({} : SelectionToolbarProps).updatePositionStrategy = none ∧
    ({} : SelectionToolbarItemProps).onSelect = none ∧
    resolveProps {} = defaultResolvedConfig :=
  ⟨rfl, rfl, rfl, rfl, rfl, rfl, rfl, rfl, rfl, rfl, rfl, rfl, rfl, rfl, rfl, rfl, rfl⟩

/-- Claim C10: a `null` container, a `null` collision boundary, a `null`
entry inside a collision-boundary list, and a container ref whose `current`
is `null` are all accepted and behave as if the option were absent — the
scope defaults to the whole document and the `null` entry contributes no
boundary. -/
theorem null_options_behave_as_absent (l1 l2 : List (Option Element)) :
    resolveScope (some ContainerProp.nullVal) = resolveScope none ∧
    resolveScope none = Scope.wholeDocument ∧
    resolveScope (some (ContainerProp.ref none)) = Scope.wholeDocument ∧
    resolveBoundaries (some BoundaryProp.nullVal) = resolveBoundaries none ∧
    resolveBoundaries none = [] ∧
    resolveBoundaries (some (BoundaryProp.list (l1 ++ none :: l2))) =
      resolveBoundaries (some (BoundaryProp.list (l1 ++ l2))) := by
  refine ⟨rfl, rfl, rfl, rfl, rfl, ?_⟩
  simp [resolveBoundaries]

/-- Claim C5: in controlled mode (external `open` supplied), an internal
close trigger calls `onOpenChange(false)` exactly once and leaves both the
controller state and the externally-owned effective `open` value unchanged
until the caller updates it. -/
theorem controlled_close_defers (s : ControllerState) (b : Bool)
    (h : s.externalOpen = some b) :
    (applyInternalClose s).onOpenChangeCalls = [false] ∧
    (applyInternalClose s).state = s ∧
    effectiveOpen (applyInternalClose s).state = b := by
  unfold applyInternalClose
  rw [h]
  exact ⟨rfl, rfl, by simp [effectiveOpen, h]⟩

/-- Claim C5 witness: a concrete controlled controller state. -/
theorem controlled_close_defers_witness :
    (applyInternalClose { externalOpen := some true, internalOpen := true }).onOpenChangeCalls
        = [false] ∧
    (applyInternalClose { externalOpen := some true, internalOpen := true }).state
        = { externalOpen := some true, internalOpen := true } ∧
    effectiveOpen (applyInternalClose
        { externalOpen := some true, internalOpen := true }).state = true :=
  controlled_close_defers { externalOpen := some true, internalOpen := true } true rfl

/-- Claim C6: teardown synchronously detaches all listeners and cancels all
pending scheduled work; scheduling after teardown is a no-op rather than an
error, and no callback ever fires under any sequence of operations after
teardown. -/
theorem teardown_silences_pipeline (s : PipelineState) (t : Nat) (ops : List PipelineOp) :
    (teardown s).listenersAttached = false ∧
    (teardown s).pendingTasks = [] ∧
    schedule (teardown s) t = teardown s ∧
    (runOps (teardown s) ops).2 = [] :=
  ⟨rfl, rfl, rfl, (runOps_tornDown ops (teardown s) rfl).1⟩

/-- Claim C7: every invalid configuration — negative `sideOffset`, unknown
`side`, or unknown `align` — is rejected at configuration time with a
descriptive (nonempty) validation error instead of being accepted. -/
theorem invalid_config_fails_fast (c : RawConfig)
    (h : c.sideOffset < 0 ∨ validSideNames.contains c.side = false ∨
         validAlignNames.contains c.align = false) :
    ∃ msg : String, validateConfig c = Except.error msg ∧ msg ≠ "" := by
  unfold validateConfig
  split_ifs with h1 h2 h3
  · exact ⟨_, rfl, by decide⟩
  · exact ⟨_, rfl, by decide⟩
  · exact ⟨_, rfl, by decide⟩
  · exfalso
    rcases h with h | h | h
    · exact h1 h
    · exact h2 h
    · exact h3 h

/-- Claim C7 witness: a negative `sideOffset` is rejected. -/
theorem invalid_config_fails_fast_witness :
    ∃ msg : String,
      validateConfig { side := "top", align := "center", sideOffset := -1 }
          = Except.error msg ∧ msg ≠ "" :=
  invalid_config_fails_fast { side := "top", align := "center", sideOffset := -1 }
    (Or.inl (by decide))

/-- Claim C8: an item's `onSelect` callback is invoked with exactly the pair
(current selection text, triggering event), and invoking it leaves the
toolbar state — in particular `open` — unchanged. -/
theorem item_onSelect_contract (s : ToolbarState) (ev : Event) (text : String)
    (hsel : s.selectionText = some text) :
    (dispatchItemSelect s true ev).callbackArgs = some (text, ev) ∧
    (dispatchItemSelect s true ev).state.«open» = s.«open» ∧
    (dispatchItemSelect s true ev).state = s := by
  unfold dispatchItemSelect
  simp [hsel]

/-- Claim C8 witness: a concrete open toolbar state and event. -/
theorem item_onSelect_contract_witness :
    (dispatchItemSelect
        { «open» := true, selectionText := some "hello", placement := none }
        true { id := 7, defaultPrevented := false }).callbackArgs
      = some ("hello", { id := 7, defaultPrevented := false }) ∧
    (dispatchItemSelect
        { «open» := true, selectionText := some "hello", placement := none }
        true { id := 7, defaultPrevented := false }).state.«open» = true ∧
    (dispatchItemSelect
        { «open» := true, selectionText := some "hello", placement := none }
        true { id := 7, defaultPrevented := false }).state
      = { «open» := true, selectionText := some "hello", placement := none } :=
  item_onSelect_contract
    { «open» := true, selectionText := some "hello", placement := none }
    { id := 7, defaultPrevented := false } "hello" rfl

/-- Claim C2 counterexample: on the spec's first flip scenario (anchor
`{top:100,left:50,width:40,height:20}`, floating 120×30, boundary
`{top:0,left:0,width:800,height:120}`, `side="top"`) the requested top
placement spans y 62..92, entirely inside the boundary's 0..120 vertical
extent, so nothing overflows, no flip happens, and `placedSide` is `"top"` —
not the claimed `"bottom"`. -/
theorem flip_scenario_counterexample :
    primaryOverflow (scenarioInput scenarioBoundarySmall) scenarioClipSmall Side.top ≤ 0 ∧
    (place (scenarioInput scenarioBoundarySmall)).placedSide = Side.top ∧
    (place (scenarioInput scenarioBoundarySmall)).placedSide ≠ Side.bottom := by
  decide

/-- Claim C3 counterexample: with `sticky="partial"` and an anchor entirely
outside the boundary on the alignment axis, the shift is suppressed, so the
returned position overflows the boundary even though a collision-free
position exists (the 50×20 box fits at (0,0)). -/
theorem shift_bound_counterexample :
    stickyOutsideInput.avoidCollisions = true ∧
    clipRect stickyOutsideInput.collisionBoundaries stickyOutsideInput.collisionPadding
        = some squareBoundary ∧
    boxFits 0 0 stickyOutsideInput.floatingSize squareBoundary = true ∧
    boxFits (place stickyOutsideInput).x (place stickyOutsideInput).y
        stickyOutsideInput.floatingSize squareBoundary = false := by
  decide

/-- Claim C4 counterexample: an anchor spanning x 190..290 against a
boundary spanning x 0..200 is 90% (hence more than 50%) outside on the
alignment axis, yet it is still partially inside, so under
`sticky="partial"` the shift IS applied: the align coordinate moves from the
naive 215 to the clamped 150. -/
theorem sticky_fifty_percent_counterexample :
    stickyMostlyOutsideInput.sticky = Sticky.part ∧
    2 * (min stickyMostlyOutsideInput.anchor.right squareBoundary.right -
         max stickyMostlyOutsideInput.anchor.left squareBoundary.left) <
      stickyMostlyOutsideInput.anchor.width ∧
    naiveAlignCoord stickyMostlyOutsideInput = 215 ∧
    (place stickyMostlyOutsideInput).x = 150 ∧
    (place stickyMostlyOutsideInput).x ≠ naiveAlignCoord stickyMostlyOutsideInput := by
  decide

/-- Claim C2 (amended): with `avoidCollisions = true` and collision
boundaries present, for a floating box of positive size whose requested-side
placement overflows the boundary along the primary axis, `place` flips to
the opposite side exactly when the flipped side's primary-axis overflow is
smaller or nonpositive.  On the spec's concrete scenario (anchor
`{top:100,left:50,width:40,height:20}`, floating 120×30, `side="top"`) the
requested top placement does not overflow, so `placedSide` is `"top"` both
for the 800×120 boundary and for the 800×2000 boundary. -/
theorem flip_rule_and_scenarios :
    (∀ (input : PlacementInput) (clip : Rect),
        clipRect input.collisionBoundaries input.collisionPadding = some clip →
        input.avoidCollisions = true →
        0 < input.floatingSize.width →
        0 < primaryOverflow input clip input.side →
        ((place input).placedSide = oppositeSide input.side ↔
          (primaryOverflow input clip (oppositeSide input.side) <
             primaryOverflow input clip input.side ∨
           primaryOverflow input clip (oppositeSide input.side) ≤ 0))) ∧
    (place (scenarioInput scenarioBoundarySmall)).placedSide = Side.top ∧
    (place (scenarioInput scenarioBoundaryTall)).placedSide = Side.top := by
  refine ⟨?_, by decide, by decide⟩
  intro input clip hclip havoid hw h0
  rw [place_eq_placeWithClip input clip hclip havoid hw, placeWithClip_placedSide]
  exact resolvedSide_eq_opposite_iff input clip h0

/-- Claim C2 witness: an anchor near the boundary top with `side="top"`
overflows above, the flipped overflow is smaller, and `place` flips to
`"bottom"`. -/
theorem flip_rule_witness :
    (place flipWitnessInput).placedSide = oppositeSide flipWitnessInput.side :=
  (flip_rule_and_scenarios.1 flipWitnessInput scenarioClipSmall (by decide) rfl
      (by decide) (by decide)).mpr (by decide)

/-- Claim C3 (amended): with `avoidCollisions = true` and collision
boundaries present, whenever the algorithm's repertoire can reach a fit —
the floating box (of positive size) fits on the requested or the opposite
side along the primary axis, its extent fits inside the padded boundary
region on the alignment axis, and the `sticky` policy permits the shift
(`sticky="always"`, or the anchor at least partially inside the region on
that axis) — the returned `x`/`y` keep the floating box inside the collision
boundaries shrunk inward by `collisionPadding`. -/
theorem place_shift_bound (input : PlacementInput) (clip : Rect)
    (hclip : clipRect input.collisionBoundaries input.collisionPadding = some clip)
    (havoid : input.avoidCollisions = true)
    (hw : 0 < input.floatingSize.width)
    (hprim : primaryOverflow input clip input.side ≤ 0 ∨
             primaryOverflow input clip (oppositeSide input.side) ≤ 0)
    (halign : alignSize input.floatingSize input.side ≤ clipAlignSize clip input.side)
    (hsticky : input.sticky = Sticky.always ∨
               anchorPartiallyInsideAlign input.anchor clip input.side = true) :
    boxFits (place input).x (place input).y input.floatingSize clip = true := by
  rw [place_eq_placeWithClip input clip hclip havoid hw]
  have hres := primaryOverflow_resolvedSide_le input clip hprim
  have hvert := isVertical_resolvedSide input clip
  have hallow : input.sticky = Sticky.always ∨
      anchorPartiallyInsideAlign input.anchor clip (resolvedSide input clip) = true := by
    rcases hsticky with h | h
    · exact Or.inl h
    · exact Or.inr (by
        rw [anchorPartiallyInsideAlign_congr input.anchor clip (resolvedSide input clip)
              input.side hvert]
        exact h)
  cases hv : isVertical (resolvedSide input clip) with
  | true =>
    have hv' : isVertical input.side = true := by rw [← hvert]; exact hv
    rw [primaryOverflow_vertical input clip _ hv, max_le_iff] at hres
    have hfit : input.floatingSize.width ≤ clip.right - clip.left := by
      unfold alignSize clipAlignSize at halign
      rw [if_pos hv', if_pos hv'] at halign
      simp only [Rect.right]
      omega
    have hx := shiftCoord_mem clip.left clip.right
      (naiveX input.anchor input.floatingSize (resolvedSide input clip) input.align
        input.sideOffset input.alignOffset) input.floatingSize.width hfit
    rw [placeWithClip_x_vertical input clip hv, placeWithClip_y_vertical input clip hv,
        if_pos hallow]
    simp only [boxFits, decide_eq_true_eq]
    exact ⟨hx.1, hx.2, by omega, by omega⟩
  | false =>
    have hv' : isVertical input.side = false := by rw [← hvert]; exact hv
    rw [primaryOverflow_horizontal input clip _ hv, max_le_iff] at hres
    have hfit : input.floatingSize.height ≤ clip.bottom - clip.top := by
      unfold alignSize clipAlignSize at halign
      rw [if_neg (by rw [hv']; decide), if_neg (by rw [hv']; decide)] at halign
      simp only [Rect.bottom]
      omega
    have hy := shiftCoord_mem clip.top clip.bottom
      (naiveY input.anchor input.floatingSize (resolvedSide input clip) input.align
        input.sideOffset input.alignOffset) input.floatingSize.height hfit
    rw [placeWithClip_x_horizontal input clip hv, placeWithClip_y_horizontal input clip hv,
        if_pos hallow]
    simp only [boxFits, decide_eq_true_eq]
    exact ⟨by omega, by omega, hy.1, hy.2⟩

/-- Claim C3 witness: an anchor comfortably inside a 200×200 boundary; the
returned placement fits inside the boundary. -/
theorem place_shift_bound_witness :
    boxFits (place shiftFitInput).x (place shiftFitInput).y shiftFitInput.floatingSize
      squareBoundary = true :=
  place_shift_bound shiftFitInput squareBoundary (by decide) rfl (by decide)
    (Or.inl (by decide)) (by decide) (Or.inr (by decide))

/-- Claim C4 (amended): under `sticky = "partial"` (with collision handling
active), if the anchor is entirely outside the padded boundary region on the
alignment axis, `place` applies no shift on that axis — the alignment-axis
coordinate stays at its naive value and the box may overflow — whereas any
anchor at least partially inside the region on that axis still permits the
shift: the alignment-axis coordinate is the naive value clamped into the
region. -/
theorem sticky_partial_shift_policy (input : PlacementInput) (clip : Rect)
    (hclip : clipRect input.collisionBoundaries input.collisionPadding = some clip)
    (havoid : input.avoidCollisions = true)
    (hsticky : input.sticky = Sticky.part)
    (hw : 0 < input.floatingSize.width) :
    (anchorPartiallyInsideAlign input.anchor clip input.side = false →
        resultAlignCoord input = naiveAlignCoord input) ∧
    (anchorPartiallyInsideAlign input.anchor clip input.side = true →
        resultAlignCoord input = shiftedAlignCoord input clip) := by
  have hvert := isVertical_resolvedSide input clip
  have hpe := place_eq_placeWithClip input clip hclip havoid hw
  have hnotalways : ¬ input.sticky = Sticky.always := by
    rw [hsticky]
    decide
  constructor
  · intro hout
    have hout' : anchorPartiallyInsideAlign input.anchor clip (resolvedSide input clip)
        = false := by
      rw [anchorPartiallyInsideAlign_congr input.anchor clip (resolvedSide input clip)
            input.side hvert]
      exact hout
    have hnallow : ¬ (input.sticky = Sticky.always ∨
        anchorPartiallyInsideAlign input.anchor clip (resolvedSide input clip) = true) := by
      rintro (h | h)
      · exact hnotalways h
      · rw [hout'] at h
        cases h
    cases hv : isVertical input.side with
    | true =>
      have hv2 : isVertical (resolvedSide input clip) = true := by rw [hvert]; exact hv
      rw [resultAlignCoord_vertical input hv, naiveAlignCoord_vertical input hv,
          hpe, placeWithClip_x_vertical input clip hv2, if_neg hnallow]
      exact naiveX_vertical_congr input.anchor input.floatingSize _ input.side input.align
        input.sideOffset input.alignOffset hv2 hv
    | false =>
      have hv2 : isVertical (resolvedSide input clip) = false := by rw [hvert]; exact hv
      rw [resultAlignCoord_horizontal input hv, naiveAlignCoord_horizontal input hv,
          hpe, placeWithClip_y_horizontal input clip hv2, if_neg hnallow]
      exact naiveY_horizontal_congr input.anchor input.floatingSize _ input.side input.align
        input.sideOffset input.alignOffset hv2 hv
  · intro hin
    have hallow : input.sticky = Sticky.always ∨
        anchorPartiallyInsideAlign input.anchor clip (resolvedSide input clip) = true :=
      Or.inr (by
        rw [anchorPartiallyInsideAlign_congr input.anchor clip (resolvedSide input clip)
              input.side hvert]
        exact hin)
    cases hv : isVertical input.side with
    | true =>
      have hv2 : isVertical (resolvedSide input clip) = true := by rw [hvert]; exact hv
      rw [resultAlignCoord_vertical input hv, shiftedAlignCoord_vertical input clip hv,
          naiveAlignCoord_vertical input hv,
          hpe, placeWithClip_x_vertical input clip hv2, if_pos hallow,
          naiveX_vertical_congr input.anchor input.floatingSize _ input.side input.align
            input.sideOffset input.alignOffset hv2 hv]
    | false =>
      have hv2 : isVertical (resolvedSide input clip) = false := by rw [hvert]; exact hv
      rw [resultAlignCoord_horizontal input hv, shiftedAlignCoord_horizontal input clip hv,
          naiveAlignCoord_horizontal input hv,
          hpe, placeWithClip_y_horizontal input clip hv2, if_pos hallow,
          naiveY_horizontal_congr input.anchor input.floatingSize _ input.side input.align
            input.sideOffset input.alignOffset hv2 hv]

/-- Claim C4 witness: the 90%-outside-but-partially-inside anchor is still
shifted — the result's alignment coordinate equals the clamped one. -/
theorem sticky_partial_shift_policy_witness :
    resultAlignCoord stickyMostlyOutsideInput =
      shiftedAlignCoord stickyMostlyOutsideInput squareBoundary :=
  (sticky_partial_shift_policy stickyMostlyOutsideInput squareBoundary (by decide) rfl rfl
      (by decide)).2 (by decide)

end SelectionToolbar
